import Mathlib

/-!
Verification of the Medit local file server (src/server.py).

The development shallowly embeds the request handlers `do_GET`, `do_POST`
and `do_OPTIONS` of `Handler`, together with the fragments of the Python
standard library they depend on (urlparse, parse_qs, unquote, pathlib
paths, Path.read_bytes / write_bytes). The filesystem is modelled as an
association list from normalised paths to entries (regular file with its
bytes, or directory); an uncaught Python exception is a distinct outcome,
not a response.
-/

set_option autoImplicit false

namespace Medit

/-- Bytes are modelled as natural numbers (each below 256; the bound is
never needed). -/
abbrev Bytes := List Nat

/-- str.encode() / the byte view of a string body. -/
def strBytes (s : String) : Bytes :=
  s.toUTF8.toList.map (fun b => b.toNat)

/-- Python str.split(sep) for a one-character separator, on character
lists: every piece is kept, empty pieces included. -/
def splitChar (c : Char) : List Char → List (List Char)
  | [] => [[]]
  | x :: xs =>
    match splitChar c xs with
    | [] => if x = c then [[], []] else [[x]]
    | y :: ys => if x = c then [] :: y :: ys else (x :: y) :: ys

/-- Python str.split(sep, 1) for a one-character separator: the part
before the first occurrence, and the part after it when the separator
occurs at all. -/
def splitFirstChar (c : Char) : List Char → List Char × Option (List Char)
  | [] => ([], none)
  | x :: xs =>
    if x = c then ([], some xs)
    else
      match splitFirstChar c xs with
      | (pre, rest) => (x :: pre, rest)

/-- str.split(sep, 1)[0] together with the remainder (empty when the
separator does not occur), on strings. -/
def splitFirst (s : String) (c : Char) : String × String :=
  match splitFirstChar c s.toList with
  | (pre, some rest) => (String.mk pre, String.mk rest)
  | (pre, none) => (String.mk pre, "")

/-- Python str.join for a one-character separator, on character lists. -/
def joinChar (c : Char) : List (List Char) → List Char
  | [] => []
  | [x] => x
  | x :: xs => x ++ c :: joinChar c xs

/-- str.lower() on the ASCII fragment. -/
def lowerAscii (s : String) : String :=
  String.mk (s.toList.map Char.toLower)

/-- urlparse(self.path).path: the fragment (from the first "#") is
stripped, then everything from the first "?" on. (The ";" parameter
splitting of urlparse is not needed by any claim and is not modelled.) -/
def urlPath (target : String) : String :=
  (splitFirst (splitFirst target '#').1 '?').1

/-- urlparse(self.path).query: what stands between the first "?" and the
fragment. -/
def urlQuery (target : String) : String :=
  (splitFirst (splitFirst target '#').1 '?').2

/-- The value of a hexadecimal digit, both cases accepted. -/
def hexDigitVal (c : Char) : Option Nat :=
  if ('0' ≤ c ∧ c ≤ '9') then some (c.toNat - 48)
  else if ('a' ≤ c ∧ c ≤ 'f') then some (c.toNat - 87)
  else if ('A' ≤ c ∧ c ≤ 'F') then some (c.toNat - 55)
  else none

/-- urllib.parse.unquote on the ASCII fragment: each valid "%XX" escape
becomes the character with code XX; an invalid escape stays literal.
(Python reassembles consecutive escaped bytes as UTF-8; on the ASCII range
modelled here the two agree.) -/
def unquoteChars : List Char → List Char
  | [] => []
  | '%' :: a :: b :: rest =>
    match hexDigitVal a, hexDigitVal b with
    | some hi, some lo => Char.ofNat (16 * hi + lo) :: unquoteChars rest
    | _, _ => '%' :: unquoteChars (a :: b :: rest)
  | c :: rest => c :: unquoteChars rest

def unquote (s : String) : String := String.mk (unquoteChars s.toList)

/-- The decoding parse_qsl applies to names and values: "+" becomes a
space, then percent-decoding. -/
def unquotePlus (s : String) : String :=
  unquote (String.mk (s.toList.map (fun c => if c = '+' then ' ' else c)))

/-- urllib.parse.parse_qsl with its defaults: split the query on "&",
drop pairs with no "=" and (keep_blank_values being False) pairs whose
value is empty, and decode name and value. parse_qs groups this list by
name preserving order. -/
def parseQsl (q : String) : List (String × String) :=
  (splitChar '&' q.toList).filterMap (fun nv =>
    match splitFirstChar '=' nv with
    | (_, none) => none
    | (name, some value) =>
      if value = [] then none
      else some (unquotePlus (String.mk name), unquotePlus (String.mk value)))

/-- qs.get(k, [""])[0]: the first value listed for the key, or "". -/
def qsFirst (l : List (String × String)) (k : String) : String :=
  match l.find? (fun p => p.1 == k) with
  | some p => p.2
  | none => ""

/-- A pathlib.PurePosixPath: the root ("", "/" or "//") and the non-empty,
non-"." components. -/
structure PPath where
  root : String
  comps : List String
deriving DecidableEq, Repr

/-- A prefix test on character lists (pattern first). -/
def startsWithChars : List Char → List Char → Bool
  | [], _ => true
  | _ :: _, [] => false
  | p :: ps, x :: xs => p = x && startsWithChars ps xs

/-- Path(s), posix rules: a leading "/" is the root (exactly two leading
slashes give the special root "//"); empty and "." components are
dropped. -/
def parsePPath (s : String) : PPath :=
  { root :=
      if startsWithChars ['/'] s.toList then
        if startsWithChars ['/', '/'] s.toList ∧ ¬ startsWithChars ['/', '/', '/'] s.toList
        then "//" else "/"
      else "",
    comps := ((splitChar '/' s.toList).filter
      (fun c => !(c == []) && !(c == ['.']))).map String.mk }

/-- str(Path): root then "/"-joined components; the empty relative path
prints as ".". -/
def pathStr (p : PPath) : String :=
  if p.comps = [] then (if p.root = "" then "." else p.root)
  else p.root ++ String.mk (joinChar '/' (p.comps.map String.toList))

/-- PurePath.name: the last component, or "" for a bare root. -/
def pathName (p : PPath) : String :=
  (p.comps.getLast?).getD ""

/-- PurePath.suffix: the name from its last ".", provided that dot is
neither the first nor the last character of the name. -/
def pathSuffix (p : PPath) : String :=
  let n := pathName p
  match (n.toList.enum.filter (fun q => q.2 == '.')).getLast? with
  | some q =>
    if 0 < q.1 ∧ q.1 < n.length - 1 then String.mk (n.toList.drop q.1) else ""
  | none => ""

/-- The save whitelist of do_POST, compared after .lower(). -/
def mdExts : List String := [".md", ".markdown"]

/-- A filesystem entry: a regular file with its bytes, or a directory. -/
inductive Entry where
  | file (data : Bytes)
  | dir
deriving DecidableEq, Repr

/-- The filesystem: an association list from (normalised) paths to
entries; the first binding for a path is the authoritative one. -/
abbrev FS := List (PPath × Entry)

def fsLookup : FS → PPath → Option Entry
  | [], _ => none
  | q :: fs, p => if q.1 = p then some q.2 else fsLookup fs p

def fsSet : FS → PPath → Entry → FS
  | [], p, e => [(p, e)]
  | q :: fs, p, e => if q.1 = p then (p, e) :: fs else q :: fsSet fs p e

/-- Path.exists(). -/
def fsExists (fs : FS) (p : PPath) : Bool := (fsLookup fs p).isSome

/-- CPython renders IsADirectoryError with the errno text and the filename
(the quotes CPython puts around the filename are elided). -/
def isADirMsg (p : PPath) : String := "[Errno 21] Is a directory: " ++ pathStr p

/-- Path.read_bytes(): the bytes of a regular file; reading a directory
raises IsADirectoryError. (The handler guards every call with exists().) -/
def fsReadBytes (fs : FS) (p : PPath) : Except String Bytes :=
  match fsLookup fs p with
  | some (Entry.file d) => Except.ok d
  | some Entry.dir => Except.error (isADirMsg p)
  | none => Except.error ("[Errno 2] No such file or directory: " ++ pathStr p)

/-- Path.write_bytes(): create or truncate a regular file; writing over a
directory raises IsADirectoryError. -/
def fsWriteBytes (fs : FS) (p : PPath) (d : Bytes) : Except String FS :=
  match fsLookup fs p with
  | some Entry.dir => Except.error (isADirMsg p)
  | _ => Except.ok (fsSet fs p (Entry.file d))

/-- SERVER_VERSION of server.py. -/
def SERVER_VERSION : String := "1.1.0"

/-- SERVER_NAME of server.py. -/
def SERVER_NAME : String := "Medit Server"

/-- json.dumps string escaping (ASCII fragment; the ensure_ascii escaping
of characters above 127 is not needed by any claim). -/
def hexChar (n : Nat) : Char :=
  if n < 10 then Char.ofNat (48 + n) else Char.ofNat (87 + n)

def jsonEscapeChar (c : Char) : String :=
  if c = '"' then "\\\""
  else if c = '\\' then "\\\\"
  else if c = Char.ofNat 10 then "\\n"
  else if c = Char.ofNat 9 then "\\t"
  else if c = Char.ofNat 13 then "\\r"
  else if c = Char.ofNat 8 then "\\b"
  else if c = Char.ofNat 12 then "\\f"
  else if c.toNat < 32 then
    "\\u00" ++ String.mk [hexChar (c.toNat / 16), hexChar (c.toNat % 16)]
  else String.mk [c]

def jsonEscape (s : String) : String := String.join (s.toList.map jsonEscapeChar)

/-- json.dumps of the /version payload. -/
def versionBody : String :=
  "\x7b\"version\": \"" ++ SERVER_VERSION ++ "\", \"name\": \"" ++ SERVER_NAME ++ "\"\x7d"

/-- json.dumps of an error payload. -/
def jsonErrorBody (msg : String) : String :=
  "\x7b\"error\": \"" ++ jsonEscape msg ++ "\"\x7d"

/-- json.dumps of the save success payload. -/
def jsonSuccessBody (p : PPath) : String :=
  "\x7b\"success\": true, \"path\": \"" ++ jsonEscape (pathStr p) ++ "\"\x7d"

/-- One HTTP response: status, the headers in the order they are sent, and
the body bytes. -/
structure Response where
  status : Nat
  headers : List (String × String)
  body : Bytes
deriving DecidableEq, Repr

/-- end_headers: the three cache-control headers every response receives,
after the headers the handler sent. -/
def cacheHeaders : List (String × String) :=
  [("Cache-Control", "no-cache, no-store, must-revalidate"),
   ("Pragma", "no-cache"),
   ("Expires", "0")]

def ctJson : String × String := ("Content-Type", "application/json")

def acaoAny : String × String := ("Access-Control-Allow-Origin", "*")

/-- One HTTP request as the handler sees it: the request target
(self.path), the Content-Length header when present, and the bytes
available on the body stream (rfile). -/
structure Request where
  target : String
  contentLength : Option Nat := none
  body : Bytes := []
deriving Repr

/-- What do_GET produces: a finished response, an uncaught Python
exception (which aborts the handler with no response sent), or deferral to
SimpleHTTPRequestHandler static file serving. -/
inductive GetOutcome where
  | resp (r : Response)
  | raised (msg : String)
  | staticFile
deriving DecidableEq, Repr

/-- raw_path of the handlers: qs.get("path", [""])[0] on the parsed query
of the request target. -/
def rawPathOf (target : String) : String :=
  qsFirst (parseQsl (urlQuery target)) "path"

/-- file_path of the handlers: Path(unquote(raw_path)). -/
def filePathOf (target : String) : PPath :=
  parsePPath (unquote (rawPathOf target))

/-- The request body the save handler reads: exactly Content-Length bytes
of the stream (header absent meaning 0). -/
def postContent (req : Request) : Bytes :=
  req.body.take (req.contentLength.getD 0)

/-- Handler.do_GET. -/
def doGet (fs : FS) (req : Request) : GetOutcome :=
  if urlPath req.target = "/version" then
    GetOutcome.resp ⟨200, [ctJson, acaoAny] ++ cacheHeaders, strBytes versionBody⟩
  else if urlPath req.target = "/file" then
    if rawPathOf req.target = "" then
      GetOutcome.resp ⟨400, cacheHeaders, strBytes "Missing path"⟩
    else if ¬ fsExists fs (filePathOf req.target) then
      GetOutcome.resp ⟨404, cacheHeaders, strBytes "File not found"⟩
    else
      match fsReadBytes fs (filePathOf req.target) with
      | Except.ok d =>
        GetOutcome.resp
          ⟨200, [("Content-Type", "text/plain; charset=utf-8"), acaoAny] ++ cacheHeaders, d⟩
      | Except.error e => GetOutcome.raised e
  else GetOutcome.staticFile

/-- Handler.do_POST: the response together with the filesystem after the
request. -/
def doPost (fs : FS) (req : Request) : Response × FS :=
  if urlPath req.target = "/file" then
    if rawPathOf req.target = "" then
      (⟨400, [ctJson, acaoAny] ++ cacheHeaders, strBytes (jsonErrorBody "Missing path")⟩, fs)
    else if ¬ lowerAscii (pathSuffix (filePathOf req.target)) ∈ mdExts then
      (⟨400, [ctJson, acaoAny] ++ cacheHeaders,
        strBytes (jsonErrorBody "Only markdown files allowed")⟩, fs)
    else
      match fsWriteBytes fs (filePathOf req.target) (postContent req) with
      | Except.ok fs2 =>
        (⟨200, [ctJson, acaoAny] ++ cacheHeaders,
          strBytes (jsonSuccessBody (filePathOf req.target))⟩, fs2)
      | Except.error e =>
        (⟨500, [ctJson, acaoAny] ++ cacheHeaders, strBytes (jsonErrorBody e)⟩, fs)
  else
    (⟨404, cacheHeaders, strBytes "Not found"⟩, fs)

/-- Handler.do_OPTIONS: the same CORS preflight response whatever the
request. -/
def doOptions (_req : Request) : Response :=
  ⟨200,
   [acaoAny,
    ("Access-Control-Allow-Methods", "GET, POST, OPTIONS"),
    ("Access-Control-Allow-Headers", "Content-Type")] ++ cacheHeaders,
   []⟩

/-! Association-list lemmas about the filesystem model. -/

theorem fsSet_lookup_of_ne (fs : FS) (p k : PPath) (e : Entry) (h : ¬ k = p) :
    fsLookup (fsSet fs p e) k = fsLookup fs k := by
  have h2 : ¬ p = k := fun hpk => h hpk.symm
  induction fs with
  | nil => simp [fsSet, fsLookup, h2]
  | cons q fs ih =>
    by_cases hq : q.1 = p
    · subst hq
      simp [fsSet, fsLookup, h2]
    · simp only [fsSet, if_neg hq, fsLookup]
      by_cases hk : q.1 = k
      · simp [hk]
      · simp [hk, ih]

theorem fsSet_of_lookup_eq (fs : FS) (p : PPath) (e : Entry)
    (h : fsLookup fs p = some e) : fsSet fs p e = fs := by
  induction fs with
  | nil => simp [fsLookup] at h
  | cons q fs ih =>
    by_cases hq : q.1 = p
    · simp only [fsLookup, if_pos hq] at h
      have he : q.2 = e := Option.some.inj h
      simp only [fsSet, if_pos hq]
      rw [← hq, ← he]
    · simp only [fsLookup, if_neg hq] at h
      simp only [fsSet, if_neg hq]
      rw [ih h]

/-- The save handler can change the filesystem only at the decoded request
path, and only when that path's lowercased suffix is whitelisted. -/
theorem doPost_change_is_md (fs : FS) (req : Request) (k : PPath)
    (h : ¬ fsLookup ((doPost fs req).2) k = fsLookup fs k) :
    lowerAscii (pathSuffix k) ∈ mdExts := by
  by_cases h1 : urlPath req.target = "/file"
  · by_cases h2 : rawPathOf req.target = ""
    · simp [doPost, h1, h2] at h
    · by_cases h3 : lowerAscii (pathSuffix (filePathOf req.target)) ∈ mdExts
      · by_cases hk : k = filePathOf req.target
        · rw [hk]; exact h3
        · exfalso
          rcases hlk : fsLookup fs (filePathOf req.target) with _ | e
          · simp [doPost, h1, h2, h3, fsWriteBytes, hlk,
              fsSet_lookup_of_ne fs (filePathOf req.target) k _ hk] at h
          · cases e with
            | file d =>
              simp [doPost, h1, h2, h3, fsWriteBytes, hlk,
                fsSet_lookup_of_ne fs (filePathOf req.target) k _ hk] at h
            | dir => simp [doPost, h1, h2, h3, fsWriteBytes, hlk] at h
      · simp [doPost, h1, h2, h3] at h
  · simp [doPost, h1] at h

/-! The claims. -/

/-- C1: for every existing regular file whose (lowercased) suffix is .md
or .markdown, GET /file?path=F answers 200 with exactly the file's bytes,
and POST /file?path=F with those bytes as body (and their length as
Content-Length) leaves the filesystem byte-for-byte unchanged. -/
theorem C1_get_post_roundtrip (fs : FS) (t : String) (d : Bytes)
    (hpath : urlPath t = "/file")
    (hraw : ¬ rawPathOf t = "")
    (hfile : fsLookup fs (filePathOf t) = some (Entry.file d))
    (hmd : lowerAscii (pathSuffix (filePathOf t)) ∈ mdExts) :
    doGet fs ⟨t, none, []⟩ =
      GetOutcome.resp
        ⟨200, [("Content-Type", "text/plain; charset=utf-8"), acaoAny] ++ cacheHeaders, d⟩
    ∧ (doPost fs ⟨t, some d.length, d⟩).2 = fs := by
  constructor
  · simp [doGet, hpath, hraw, fsExists, fsReadBytes, hfile]
  · have hw : fsWriteBytes fs (filePathOf t) d = Except.ok fs := by
      rw [fsWriteBytes, hfile, fsSet_of_lookup_eq fs (filePathOf t) (Entry.file d) hfile]
    simp [doPost, hpath, hraw, hmd, postContent, hw]

/-- C1 witness: a concrete .md file round-trips unchanged. -/
theorem C1_get_post_roundtrip_witness :
    doGet [(parsePPath "/tmp/a.md", Entry.file [104, 105])] ⟨"/file?path=/tmp/a.md", none, []⟩ =
      GetOutcome.resp
        ⟨200, [("Content-Type", "text/plain; charset=utf-8"), acaoAny] ++ cacheHeaders, [104, 105]⟩
    ∧ (doPost [(parsePPath "/tmp/a.md", Entry.file [104, 105])]
        ⟨"/file?path=/tmp/a.md", some 2, [104, 105]⟩).2 =
        [(parsePPath "/tmp/a.md", Entry.file [104, 105])] :=
  C1_get_post_roundtrip [(parsePPath "/tmp/a.md", Entry.file [104, 105])]
    "/file?path=/tmp/a.md" [104, 105] (by decide) (by decide) (by decide) (by decide)

/-- C2 counterexample: the path /tmp/x.MD has the extension ".MD", which
is literally neither ".md" nor ".markdown", yet the save handler accepts
the write (status 200) and the filesystem is modified — the extension
check lowercases first, so the claim as stated fails. -/
theorem C2_counterexample :
    pathSuffix (filePathOf "/file?path=/tmp/x.MD") = ".MD"
    ∧ ¬ ".MD" ∈ mdExts
    ∧ (doPost [] ⟨"/file?path=/tmp/x.MD", some 1, [65]⟩).1.status = 200
    ∧ ¬ (doPost [] ⟨"/file?path=/tmp/x.MD", some 1, [65]⟩).2 = ([] : FS) := by
  decide

/-- C2 (amended): a POST /file whose decoded path has a lowercased
extension other than .md or .markdown gets 400 with the JSON error body
and leaves the filesystem untouched; and in general the write path never
changes the filesystem at a path whose lowercased extension is not .md or
.markdown. -/
theorem C2_post_rejects_nonmd (fs : FS) (req : Request)
    (hpath : urlPath req.target = "/file")
    (hraw : ¬ rawPathOf req.target = "")
    (hext : ¬ lowerAscii (pathSuffix (filePathOf req.target)) ∈ mdExts) :
    (doPost fs req).1 =
      ⟨400, [ctJson, acaoAny] ++ cacheHeaders,
        strBytes (jsonErrorBody "Only markdown files allowed")⟩
    ∧ (doPost fs req).2 = fs
    ∧ ∀ (fs2 : FS) (req2 : Request) (k : PPath),
        ¬ fsLookup ((doPost fs2 req2).2) k = fsLookup fs2 k →
        lowerAscii (pathSuffix k) ∈ mdExts := by
  refine ⟨?_, ?_, fun fs2 req2 k hk => doPost_change_is_md fs2 req2 k hk⟩
  · simp [doPost, hpath, hraw, hext]
  · simp [doPost, hpath, hraw, hext]

/-- C2 witness: POST /file?path=/tmp/x.txt is rejected with 400 and does
not modify the (empty) filesystem. -/
theorem C2_post_rejects_nonmd_witness :
    (doPost [] ⟨"/file?path=/tmp/x.txt", some 1, [65]⟩).1 =
      ⟨400, [ctJson, acaoAny] ++ cacheHeaders,
        strBytes (jsonErrorBody "Only markdown files allowed")⟩
    ∧ (doPost [] ⟨"/file?path=/tmp/x.txt", some 1, [65]⟩).2 = ([] : FS) :=
  ⟨(C2_post_rejects_nonmd [] ⟨"/file?path=/tmp/x.txt", some 1, [65]⟩
      (by decide) (by decide) (by decide)).1,
   (C2_post_rejects_nonmd [] ⟨"/file?path=/tmp/x.txt", some 1, [65]⟩
      (by decide) (by decide) (by decide)).2.1⟩

/-- C3 counterexample: GET /file on an existing directory does not answer
400 (nor 403/500): the read raises an uncaught IsADirectoryError and no
response is produced — do_GET has no regular-file check and no try/except
around read_bytes. -/
theorem C3_counterexample :
    doGet [(parsePPath "/tmp/d", Entry.dir)] ⟨"/file?path=/tmp/d", none, []⟩ =
      GetOutcome.raised "[Errno 21] Is a directory: /tmp/d" := by
  decide

/-- C3 (amended): with a present path parameter, GET /file answers 404
when the target does not exist and 200 when it is a regular file; when the
target exists but is a directory, the handler raises an uncaught exception
instead of responding (there is no 400/403/500 error mapping on the read
path). -/
theorem C3_get_error_paths (fs : FS) (req : Request) (d : Bytes)
    (hpath : urlPath req.target = "/file")
    (hraw : ¬ rawPathOf req.target = "") :
    (fsLookup fs (filePathOf req.target) = none →
      doGet fs req = GetOutcome.resp ⟨404, cacheHeaders, strBytes "File not found"⟩)
    ∧ (fsLookup fs (filePathOf req.target) = some (Entry.file d) →
      doGet fs req =
        GetOutcome.resp
          ⟨200, [("Content-Type", "text/plain; charset=utf-8"), acaoAny] ++ cacheHeaders, d⟩)
    ∧ (fsLookup fs (filePathOf req.target) = some Entry.dir →
      doGet fs req = GetOutcome.raised (isADirMsg (filePathOf req.target))) := by
  refine ⟨fun h => ?_, fun h => ?_, fun h => ?_⟩
  · simp [doGet, hpath, hraw, fsExists, h]
  · simp [doGet, hpath, hraw, fsExists, fsReadBytes, h]
  · simp [doGet, hpath, hraw, fsExists, fsReadBytes, h]

/-- C3 witness: the three branches at concrete inputs. -/
theorem C3_get_error_paths_witness :
    doGet [] ⟨"/file?path=/nonexistent", none, []⟩ =
      GetOutcome.resp ⟨404, cacheHeaders, strBytes "File not found"⟩
    ∧ doGet [(parsePPath "/tmp/sub", Entry.dir)] ⟨"/file?path=/tmp/sub", none, []⟩ =
        GetOutcome.raised (isADirMsg (filePathOf "/file?path=/tmp/sub")) :=
  ⟨(C3_get_error_paths [] ⟨"/file?path=/nonexistent", none, []⟩ []
      (by decide) (by decide)).1 (by decide),
   (C3_get_error_paths [(parsePPath "/tmp/sub", Entry.dir)] ⟨"/file?path=/tmp/sub", none, []⟩ []
      (by decide) (by decide)).2.2 (by decide)⟩

/-- C4 counterexample: a successful GET of the .md file /tmp/a.md answers
with Content-Type "text/plain; charset=utf-8", not "text/markdown;
charset=utf-8": the handler sends text/plain for every file. -/
theorem C4_counterexample :
    doGet [(parsePPath "/tmp/b.md", Entry.file [104])] ⟨"/file?path=/tmp/b.md", none, []⟩ =
      GetOutcome.resp
        ⟨200, [("Content-Type", "text/plain; charset=utf-8"), acaoAny] ++ cacheHeaders, [104]⟩
    ∧ ¬ "text/plain; charset=utf-8" = "text/markdown; charset=utf-8" := by
  decide

/-- C4 (amended): on a successful read, GET /file answers 200 with the
full file contents, Content-Type "text/plain; charset=utf-8" whatever the
extension, and Access-Control-Allow-Origin *. -/
theorem C4_get_success_plain (fs : FS) (req : Request) (d : Bytes)
    (hpath : urlPath req.target = "/file")
    (hraw : ¬ rawPathOf req.target = "")
    (hfile : fsLookup fs (filePathOf req.target) = some (Entry.file d)) :
    doGet fs req =
      GetOutcome.resp
        ⟨200, [("Content-Type", "text/plain; charset=utf-8"), acaoAny] ++ cacheHeaders, d⟩ := by
  simp [doGet, hpath, hraw, fsExists, fsReadBytes, hfile]

/-- C4 witness: a .markdown file is served as text/plain with its bytes. -/
theorem C4_get_success_plain_witness :
    doGet [(parsePPath "/n.markdown", Entry.file [10, 200])] ⟨"/file?path=/n.markdown", none, []⟩ =
      GetOutcome.resp
        ⟨200, [("Content-Type", "text/plain; charset=utf-8"), acaoAny] ++ cacheHeaders, [10, 200]⟩ :=
  C4_get_success_plain [(parsePPath "/n.markdown", Entry.file [10, 200])]
    ⟨"/file?path=/n.markdown", none, []⟩ [10, 200] (by decide) (by decide) (by decide)

/-- C5: POST /file with a whitelisted extension writes exactly the first
Content-Length bytes of the body to the decoded path (creating or
truncating it) and answers 200 with the success JSON naming the resolved
path; a failing write (the target is a directory) answers 500 with the
JSON error body and leaves the filesystem unchanged. -/
theorem C5_post_write (fs : FS) (req : Request)
    (hpath : urlPath req.target = "/file")
    (hraw : ¬ rawPathOf req.target = "")
    (hmd : lowerAscii (pathSuffix (filePathOf req.target)) ∈ mdExts) :
    (¬ fsLookup fs (filePathOf req.target) = some Entry.dir →
      doPost fs req =
        (⟨200, [ctJson, acaoAny] ++ cacheHeaders,
            strBytes (jsonSuccessBody (filePathOf req.target))⟩,
         fsSet fs (filePathOf req.target) (Entry.file (postContent req))))
    ∧ (fsLookup fs (filePathOf req.target) = some Entry.dir →
      doPost fs req =
        (⟨500, [ctJson, acaoAny] ++ cacheHeaders,
            strBytes (jsonErrorBody (isADirMsg (filePathOf req.target)))⟩, fs)) := by
  constructor
  · intro h
    have hw : fsWriteBytes fs (filePathOf req.target) (postContent req) =
        Except.ok (fsSet fs (filePathOf req.target) (Entry.file (postContent req))) := by
      rw [fsWriteBytes]
      rcases hlk : fsLookup fs (filePathOf req.target) with _ | e
      · rfl
      · cases e with
        | file d => rfl
        | dir => exact absurd hlk h
    simp [doPost, hpath, hraw, hmd, hw]
  · intro h
    have hw : fsWriteBytes fs (filePathOf req.target) (postContent req) =
        Except.error (isADirMsg (filePathOf req.target)) := by
      rw [fsWriteBytes, h]
    simp [doPost, hpath, hraw, hmd, hw]

/-- C5 witness: a write of 3 of the 4 streamed bytes to a fresh .md path,
and a 500 when the target is a directory. -/
theorem C5_post_write_witness :
    doPost [] ⟨"/file?path=/tmp/new.md", some 3, [97, 98, 99, 100]⟩ =
      (⟨200, [ctJson, acaoAny] ++ cacheHeaders,
          strBytes (jsonSuccessBody (filePathOf "/file?path=/tmp/new.md"))⟩,
       [(filePathOf "/file?path=/tmp/new.md", Entry.file [97, 98, 99])])
    ∧ doPost [(parsePPath "/tmp/d.md", Entry.dir)] ⟨"/file?path=/tmp/d.md", some 1, [65]⟩ =
        (⟨500, [ctJson, acaoAny] ++ cacheHeaders,
            strBytes (jsonErrorBody (isADirMsg (filePathOf "/file?path=/tmp/d.md")))⟩,
         [(parsePPath "/tmp/d.md", Entry.dir)]) :=
  ⟨(C5_post_write [] ⟨"/file?path=/tmp/new.md", some 3, [97, 98, 99, 100]⟩
      (by decide) (by decide) (by decide)).1 (by decide),
   (C5_post_write [(parsePPath "/tmp/d.md", Entry.dir)] ⟨"/file?path=/tmp/d.md", some 1, [65]⟩
      (by decide) (by decide) (by decide)).2 (by decide)⟩

/-- C6: when the parsed query has no usable path value (the parameter is
absent, or present with an empty value, which parse_qs drops), GET /file
answers 400 with the plain body "Missing path" and POST /file answers 400
with the JSON body naming the same error, the filesystem untouched. -/
theorem C6_missing_path (fs : FS) (req : Request)
    (hpath : urlPath req.target = "/file")
    (hmiss : rawPathOf req.target = "") :
    doGet fs req = GetOutcome.resp ⟨400, cacheHeaders, strBytes "Missing path"⟩
    ∧ doPost fs req =
        (⟨400, [ctJson, acaoAny] ++ cacheHeaders, strBytes (jsonErrorBody "Missing path")⟩, fs) := by
  constructor
  · simp [doGet, hpath, hmiss]
  · simp [doPost, hpath, hmiss]

/-- C6 witness: /file with no query at all, and /file with an empty path
value. -/
theorem C6_missing_path_witness :
    doGet [] ⟨"/file", none, []⟩ = GetOutcome.resp ⟨400, cacheHeaders, strBytes "Missing path"⟩
    ∧ doPost [] ⟨"/file?path=", some 1, [65]⟩ =
        (⟨400, [ctJson, acaoAny] ++ cacheHeaders, strBytes (jsonErrorBody "Missing path")⟩, []) :=
  ⟨(C6_missing_path [] ⟨"/file", none, []⟩ (by decide) (by decide)).1,
   (C6_missing_path [] ⟨"/file?path=", some 1, [65]⟩ (by decide) (by decide)).2⟩

/-- C7: every GET /version request answers 200 with the fixed JSON object
built from SERVER_VERSION and SERVER_NAME — both non-empty — and a
permissive Access-Control-Allow-Origin header; the response is the same
constant whatever the filesystem and request, hence identical across
repeated calls. -/
theorem C7_version (fs : FS) (req : Request)
    (hpath : urlPath req.target = "/version") :
    doGet fs req = GetOutcome.resp ⟨200, [ctJson, acaoAny] ++ cacheHeaders, strBytes versionBody⟩
    ∧ versionBody =
        "\x7b\"version\": \"" ++ SERVER_VERSION ++ "\", \"name\": \"" ++ SERVER_NAME ++ "\"\x7d"
    ∧ ¬ SERVER_VERSION = "" ∧ ¬ SERVER_NAME = "" := by
  refine ⟨?_, rfl, by decide, by decide⟩
  simp [doGet, hpath]

/-- C7 witness: the version response at a concrete request. -/
theorem C7_version_witness :
    doGet [] ⟨"/version", none, []⟩ =
      GetOutcome.resp ⟨200, [ctJson, acaoAny] ++ cacheHeaders, strBytes versionBody⟩
    ∧ ¬ SERVER_VERSION = "" :=
  ⟨(C7_version [] ⟨"/version", none, []⟩ (by decide)).1,
   (C7_version [] ⟨"/version", none, []⟩ (by decide)).2.2.1⟩

/-- C8: do_OPTIONS answers every request — in particular any OPTIONS
/file preflight — with 200, an empty body, Access-Control-Allow-Origin *,
Access-Control-Allow-Methods "GET, POST, OPTIONS" and
Access-Control-Allow-Headers "Content-Type". -/
theorem C8_options_cors (req : Request) :
    (doOptions req).status = 200
    ∧ (doOptions req).body = []
    ∧ acaoAny ∈ (doOptions req).headers
    ∧ ("Access-Control-Allow-Methods", "GET, POST, OPTIONS") ∈ (doOptions req).headers
    ∧ ("Access-Control-Allow-Headers", "Content-Type") ∈ (doOptions req).headers := by
  refine ⟨rfl, rfl, ?_, ?_, ?_⟩ <;> simp [doOptions]

/-- C9: the save extension check lowercases the suffix, so a path whose
suffix lowercases to .md or .markdown (such as .MD) is never rejected with
400: the handler proceeds to the write, and when the target is not a
directory it answers 200 and stores the body bytes at the decoded path. -/
theorem C9_case_insensitive_ext (fs : FS) (req : Request)
    (hpath : urlPath req.target = "/file")
    (hraw : ¬ rawPathOf req.target = "")
    (hlow : lowerAscii (pathSuffix (filePathOf req.target)) ∈ mdExts) :
    ¬ (doPost fs req).1.status = 400
    ∧ (¬ fsLookup fs (filePathOf req.target) = some Entry.dir →
        (doPost fs req).1.status = 200
        ∧ (doPost fs req).2 =
            fsSet fs (filePathOf req.target) (Entry.file (postContent req))) := by
  constructor
  · rcases hlk : fsLookup fs (filePathOf req.target) with _ | e
    · have hw : fsWriteBytes fs (filePathOf req.target) (postContent req) =
          Except.ok (fsSet fs (filePathOf req.target) (Entry.file (postContent req))) := by
        rw [fsWriteBytes, hlk]
      simp [doPost, hpath, hraw, hlow, hw]
    · cases e with
      | file d =>
        have hw : fsWriteBytes fs (filePathOf req.target) (postContent req) =
            Except.ok (fsSet fs (filePathOf req.target) (Entry.file (postContent req))) := by
          rw [fsWriteBytes, hlk]
        simp [doPost, hpath, hraw, hlow, hw]
      | dir =>
        have hw : fsWriteBytes fs (filePathOf req.target) (postContent req) =
            Except.error (isADirMsg (filePathOf req.target)) := by
          rw [fsWriteBytes, hlk]
        simp [doPost, hpath, hraw, hlow, hw]
  · intro h
    have hw : fsWriteBytes fs (filePathOf req.target) (postContent req) =
        Except.ok (fsSet fs (filePathOf req.target) (Entry.file (postContent req))) := by
      rw [fsWriteBytes]
      rcases hlk : fsLookup fs (filePathOf req.target) with _ | e
      · rfl
      · cases e with
        | file d => rfl
        | dir => exact absurd hlk h
    constructor
    · simp [doPost, hpath, hraw, hlow, hw]
    · simp [doPost, hpath, hraw, hlow, hw]

/-- C9 witness: POST /file?path=/tmp/x.MD is accepted: not 400 but 200,
and the file is created. -/
theorem C9_case_insensitive_ext_witness :
    ¬ (doPost [] ⟨"/file?path=/tmp/y.MD", some 1, [65]⟩).1.status = 400
    ∧ (doPost [] ⟨"/file?path=/tmp/y.MD", some 1, [65]⟩).1.status = 200 :=
  ⟨(C9_case_insensitive_ext [] ⟨"/file?path=/tmp/y.MD", some 1, [65]⟩
      (by decide) (by decide) (by decide)).1,
   ((C9_case_insensitive_ext [] ⟨"/file?path=/tmp/y.MD", some 1, [65]⟩
      (by decide) (by decide) (by decide)).2 (by decide)).1⟩

/-- C10: a POST whose target path is not /file answers 404 with the plain
body "Not found" and leaves the filesystem unchanged. -/
theorem C10_post_other_404 (fs : FS) (req : Request)
    (hpath : ¬ urlPath req.target = "/file") :
    doPost fs req = (⟨404, cacheHeaders, strBytes "Not found"⟩, fs) := by
  simp [doPost, hpath]

/-- C10 witness: POST /other on a non-empty filesystem. -/
theorem C10_post_other_404_witness :
    doPost [(parsePPath "/a.md", Entry.file [1])] ⟨"/other", some 1, [65]⟩ =
      (⟨404, cacheHeaders, strBytes "Not found"⟩, [(parsePPath "/a.md", Entry.file [1])]) :=
  C10_post_other_404 [(parsePPath "/a.md", Entry.file [1])] ⟨"/other", some 1, [65]⟩ (by decide)

end Medit
